import Mathlib

/-!
Verification of `shift_dev/io/decompress_videos.py`.

The Python module converts tar archives of `.mp4` videos into numbered
frame images.  We give a shallow embedding of its functions:

* `convert_from_tar` — stages one video, decodes it frame by frame with
  OpenCV, writes each decoded frame as a zero-padded `.jpg`, then releases
  the decoder and removes the staged file.
* `convert_to_folder` / `convert_to_tar` — per-archive drivers that open
  the archive, filter members to `.mp4`, and run `convert_from_tar` on
  each, in tar mode also adding each frame directory to an output archive.
* `main` — argument validation, glob, scratch-root creation, job dispatch.

External effects (the cv2 decoder, the filesystem, the tar reader and
writer) are modelled by explicit environments and result records; a Python
exception propagating out of a function is modelled by a `raised` flag
(fields that the aborted continuation would have produced keep the state
at the point the exception was thrown).
-/

/-- Python `os.path.join(a, b)` for the two-argument calls used in the
source: if `b` is absolute it wins, if `a` is empty or ends in a slash
the parts are concatenated, otherwise a slash is inserted. -/
def joinPath (a b : String) : String :=
  if b.startsWith "/" then b
  else if a = "" ∨ a.endsWith "/" then a ++ b
  else a ++ "/" ++ b

/-- Python `str.replace(old, new)` on character lists: scan left to right,
replacing each non-overlapping occurrence of `old`; the replacement text
is not rescanned.  The `fuel` argument only drives the structural
recursion; every scan step consumes at least one character, so a fuel of
the string length never runs out. -/
def pyReplaceGo (old new : List Char) : Nat → List Char → List Char
  | _, [] => []
  | 0, s => s
  | fuel + 1, c :: rest =>
    if old.isPrefixOf (c :: rest) ∧ 0 < old.length then
      new ++ pyReplaceGo old new fuel (rest.drop (old.length - 1))
    else
      c :: pyReplaceGo old new fuel rest

/-- Python `str.replace(old, new)`. -/
def pyReplace (s old new : String) : String :=
  ⟨pyReplaceGo old.data new.data s.data.length s.data⟩

/-- Python `os.path.basename`: the part after the last slash. -/
def basename (p : String) : String :=
  ⟨(((p.data.reverse).takeWhile (fun c => c ≠ '/')).reverse)⟩

/-- Python `s.split(sep)[0]` for a single-character separator: the part of
the base name before the first dot, as in `os.path.basename(f).split(a
dot)[0]` at lines 38 and 44 of the source. -/
def headSplitDot (s : String) : String :=
  ⟨s.data.takeWhile (fun c => c ≠ '.')⟩

/-- The arcname / frame-directory name the source computes for a member
`f`: `os.path.basename(f).split(dot)[0]`. -/
def arcnameFor (f : String) : String :=
  headSplitDot (basename f)

/-- Python `str.endswith(suffix)`. -/
def endswith (s suffix : String) : Bool :=
  suffix.data.isSuffixOf s.data

/-- Python format `08d` applied to `frame_id`: decimal, left-padded with
zeros to at least eight characters. -/
def zfill8 (n : Nat) : String :=
  ⟨List.replicate (8 - (toString n).length) '0' ++ (toString n).data⟩

/-- The file name `convert_from_tar` writes for frame `i`
(line 80 of the source). -/
def frameName (i : Nat) : String := zfill8 i ++ ".jpg"

/-- One iteration of the decode loop, as seen from the outside:
`video.read()` either succeeds and the subsequent `cv2.imwrite` succeeds,
succeeds but the write raises, or returns a falsy `ret`. -/
inductive ReadStep where
  | frameOk : ReadStep
  | frameRaise : ReadStep
  | retFalse : ReadStep
deriving DecidableEq, Repr

/-- `true` exactly on a successful read-and-write step. -/
def ReadStep.isOk : ReadStep → Bool
  | .frameOk => true
  | _ => false

/-- No step of the list raises during `cv2.imwrite`. -/
def noRaise (l : List ReadStep) : Prop := ReadStep.frameRaise ∉ l

instance (l : List ReadStep) : Decidable (noRaise l) := by
  unfold noRaise; infer_instance

/-- Environment of one `convert_from_tar` call: whether
`tar_file.extract_file` succeeds, whether `cv2.VideoCapture` reports
`isOpened`, and the successive outcomes of `video.read`.  After the list
is exhausted the decoder keeps answering a falsy `ret` (end of stream). -/
structure VideoEnv where
  stagingOk : Bool
  opened : Bool
  reads : List ReadStep
deriving DecidableEq, Repr

/-- Outcome of the `while video.isOpened()` loop: either the loop reached
a falsy `ret` and broke (`done`), or an `imwrite` raised (`raised`);
both carry the final `frame_id` and the frame files written so far. -/
inductive LoopOut where
  | done : Nat → List String → LoopOut
  | raised : Nat → List String → LoopOut
deriving DecidableEq, Repr

/-- The decode loop of `convert_from_tar` (lines 76 to 83): starting from
`frame_id`, write each successfully read frame as `frameName frame_id`
and increment, break on the first falsy `ret`, abort if a write raises. -/
def readLoop : List ReadStep → Nat → List String → LoopOut
  | [], fid, ws => .done fid ws
  | .retFalse :: _, fid, ws => .done fid ws
  | .frameRaise :: _, fid, ws => .raised fid ws
  | .frameOk :: rest, fid, ws => readLoop rest (fid + 1) (ws ++ [frameName fid])

/-- Observable result of one `convert_from_tar` call. -/
structure ConvResult where
  /-- an exception propagated out of the call -/
  raised : Bool
  /-- the decoder-open error was logged (line 75) -/
  errorLogged : Bool
  /-- frame image files written into `output_dir`, in order -/
  writes : List String
  /-- final value of `frame_id` -/
  frameCount : Nat
  /-- `video.release()` was reached (line 84) -/
  released : Bool
  /-- number of times `os.remove` deleted the staged video (line 85) -/
  removeCount : Nat
  /-- the Python return value (the source has no return statement) -/
  ret : Option Nat
deriving DecidableEq, Repr

/-- `convert_from_tar` (lines 71 to 85): stage the video, open the
decoder, log an error if it did not open, run the decode loop, release
the decoder and delete the staged file.  If staging raises, or a frame
write raises inside the loop, the exception propagates and the trailing
release and delete statements never run. -/
def convert_from_tar (env : VideoEnv) : ConvResult :=
  if env.stagingOk = false then
    { raised := true, errorLogged := false, writes := [], frameCount := 0,
      released := false, removeCount := 0, ret := none }
  else
    let errLogged := !env.opened
    match (if env.opened then readLoop env.reads 0 [] else .done 0 []) with
    | .done fid ws =>
      { raised := false, errorLogged := errLogged, writes := ws, frameCount := fid,
        released := true, removeCount := 1, ret := none }
    | .raised fid ws =>
      { raised := true, errorLogged := errLogged, writes := ws, frameCount := fid,
        released := false, removeCount := 0, ret := none }

/-- The staged-video path used by `convert_from_tar` for a member of the
archive `tar_filepath`: `os.path.join(tmp_dir, video_name)` (lines 72,
73 and 85).  The archive the job is processing is in scope but does not
enter the computation. -/
def stagedVideoPath (tar_filepath tmp_dir video_name : String) : String :=
  joinPath tmp_dir video_name

/-- A Python value as far as the error-logging line needs: a string or an
exception object. -/
inductive PyVal where
  | pstr : String → PyVal
  | pexc : String → PyVal
deriving DecidableEq, Repr

/-- Python `+` on the values above: string plus string concatenates;
string plus exception raises `TypeError`. -/
def pyAdd : PyVal → PyVal → Except String PyVal
  | .pstr a, .pstr b => .ok (.pstr (a ++ b))
  | .pstr _, .pexc _ => .error "TypeError: can only concatenate str to str"
  | .pexc _, _ => .error "TypeError: unsupported operand"

/-- The body of the except-branch at lines 25 to 27 (and 55 to 57): build
the message `"Cannot open {}. ".format(tar_filepath) + e` and pass it to
`logger.error`.  Returns the logged message, or the exception the
expression itself raises. -/
def openFailureLog (tar_filepath : String) (e : PyVal) : Except String String :=
  match pyAdd (.pstr ("Cannot open " ++ tar_filepath ++ ". ")) e with
  | .ok (.pstr m) => .ok m
  | .ok (.pexc m) => .ok m
  | .error t => .error t

/-- Environment of one per-archive job: the archive path, whether the
`TarArchiveReader` constructor succeeds (and the exception message when it
does not), the member list the reader reports, and each member's decode
environment. -/
structure TarJobEnv where
  tar_filepath : String
  openOk : Bool
  openExc : String
  members : List String
  entryEnv : String → VideoEnv

/-- The per-member loop of `convert_to_folder` (lines 62 to 68): skip
members not ending in `.mp4`; for the rest run `convert_from_tar`; an
exception propagating out of an entry aborts the loop.  Returns the
processed members with their results, and whether an exception escaped. -/
def runFolderEntries (env : String → VideoEnv) :
    List String → List (String × ConvResult) × Bool
  | [] => ([], false)
  | f :: rest =>
    if endswith f ".mp4" then
      let r := convert_from_tar (env f)
      if r.raised then ([(f, r)], true)
      else
        let (es, b) := runFolderEntries env rest
        ((f, r) :: es, b)
    else runFolderEntries env rest

/-- Observable result of `convert_to_folder`. -/
structure FolderResult where
  /-- an exception propagated out of the call -/
  raised : Bool
  /-- messages passed to `logger.error` -/
  logged : List String
  /-- members run through `convert_from_tar`, with their results -/
  entries : List (String × ConvResult)
deriving Repr

/-- `convert_to_folder` (lines 52 to 68): open the archive; on failure
run the except-branch (whose own logging line raises `TypeError` when the
caught value is an exception object); otherwise process the `.mp4`
members in order. -/
def convert_to_folder (j : TarJobEnv) : FolderResult :=
  if j.openOk = false then
    match openFailureLog j.tar_filepath (.pexc j.openExc) with
    | .ok m => { raised := false, logged := [m], entries := [] }
    | .error _ => { raised := true, logged := [], entries := [] }
  else
    let r := runFolderEntries j.entryEnv j.members
    { raised := r.2, logged := [], entries := r.1 }

/-- The per-member loop of `convert_to_tar` (lines 34 to 46): skip
members not ending in `.mp4`; for the rest run `convert_from_tar`, then
add the frame directory to the output archive under
`os.path.basename(f).split(dot)[0]` and delete it.  Returns the processed
members with their results, the arcnames added to the writer in order,
and whether an exception escaped. -/
def runTarEntries (env : String → VideoEnv) :
    List String → List (String × ConvResult) × List String × Bool
  | [] => ([], [], false)
  | f :: rest =>
    if endswith f ".mp4" then
      let r := convert_from_tar (env f)
      if r.raised then ([(f, r)], [], true)
      else
        let (es, as0, b) := runTarEntries env rest
        ((f, r) :: es, arcnameFor f :: as0, b)
    else runTarEntries env rest

/-- Observable result of `convert_to_tar`. -/
structure TarModeResult where
  /-- an exception propagated out of the call -/
  raised : Bool
  /-- messages passed to `logger.error` -/
  logged : List String
  /-- path of the `TarArchiveWriter`, when one was constructed -/
  writerPath : Option String
  /-- `tar_writer.close()` was reached (line 49) -/
  writerClosed : Bool
  /-- `tar_file.close()` was reached (line 48) -/
  readerClosed : Bool
  /-- arcnames added to the output archive, in order -/
  entriesAdded : List String
  /-- members run through `convert_from_tar`, with their results -/
  entries : List (String × ConvResult)
deriving Repr

/-- `convert_to_tar` (lines 22 to 49): open the archive; on failure run
the except-branch; otherwise construct the output writer at
`tar_filepath.replace(".tar", "_decompressed.tar")` before examining any
member, process the `.mp4` members, then close the reader and the
writer.  An exception escaping an entry skips the two close calls. -/
def convert_to_tar (j : TarJobEnv) : TarModeResult :=
  if j.openOk = false then
    match openFailureLog j.tar_filepath (.pexc j.openExc) with
    | .ok m =>
      { raised := false, logged := [m], writerPath := none, writerClosed := false,
        readerClosed := false, entriesAdded := [], entries := [] }
    | .error _ =>
      { raised := true, logged := [], writerPath := none, writerClosed := false,
        readerClosed := false, entriesAdded := [], entries := [] }
  else
    let wpath := pyReplace j.tar_filepath ".tar" "_decompressed.tar"
    let r := runTarEntries j.entryEnv j.members
    if r.2.2 then
      { raised := true, logged := [], writerPath := some wpath, writerClosed := false,
        readerClosed := false, entriesAdded := r.2.1, entries := r.1 }
    else
      { raised := false, logged := [], writerPath := some wpath, writerClosed := true,
        readerClosed := true, entriesAdded := r.2.1, entries := r.1 }

/-- An externally visible step of `main` after argument parsing. -/
inductive MainAct where
  | logError : String → MainAct
  | logInfo : String → MainAct
  | makedirs : String → MainAct
  | runJob : String → MainAct
deriving DecidableEq, Repr

/-- `main` after `parse_args` (lines 115 to 134), as the sequence of
externally visible steps it performs: reject a pattern not ending in
`.tar`; otherwise log the match count, log the mode, create the scratch
root with `os.makedirs`, and run one conversion job per matched file
(the sequential branch and the pool branch run the same job per file). -/
def mainRun (pattern tmp_dir : String) (globResult : List String) : List MainAct :=
  if (pattern.takeRight 4 = ".tar") = false then
    [.logError "File pattern must end with .tar!"]
  else
    [.logInfo ("Files to convert: " ++ toString globResult.length),
     .logInfo "Starting conversion",
     .makedirs tmp_dir]
    ++ globResult.map .runJob

/-! ## Helper lemmas -/

/-- On raise-free read sequences the decode loop breaks at the first falsy
`ret`, having written one frame file per leading successful read, with
consecutive indices starting at the initial `frame_id`. -/
theorem readLoop_spec (rets : List ReadStep) (fid : Nat) (ws : List String)
    (h : noRaise rets) :
    readLoop rets fid ws =
      LoopOut.done (fid + (rets.takeWhile ReadStep.isOk).length)
        (ws ++ (List.range (rets.takeWhile ReadStep.isOk).length).map
          (fun i => frameName (fid + i))) := by
  induction rets generalizing fid ws with
  | nil => simp [readLoop]
  | cons r rest ih =>
    cases r with
    | retFalse => simp [readLoop, List.takeWhile, ReadStep.isOk]
    | frameRaise => exact absurd (List.mem_cons_self _ _) h
    | frameOk =>
      have h' : noRaise rest := fun hm => h (List.mem_cons_of_mem _ hm)
      have hk : List.takeWhile ReadStep.isOk (ReadStep.frameOk :: rest)
          = ReadStep.frameOk :: List.takeWhile ReadStep.isOk rest := by
        simp [List.takeWhile, ReadStep.isOk]
      rw [show readLoop (ReadStep.frameOk :: rest) fid ws
            = readLoop rest (fid + 1) (ws ++ [frameName fid]) from rfl,
          ih _ _ h', hk]
      congr 1
      · simp [List.length_cons]; omega
      · rw [List.append_assoc]
        congr 1
        simp only [List.length_cons]
        rw [List.range_succ_eq_map, List.map_cons]
        simp only [List.map_map, List.singleton_append, Nat.add_zero]
        congr 1
        have he : (fun i => frameName (fid + 1 + i))
            = ((fun i => frameName (fid + i)) ∘ Nat.succ) := by
          funext i
          simp only [Function.comp_apply]
          congr 1
          omega
        rw [he]

/-- On a staged, opened video with a raise-free read sequence,
`convert_from_tar` reaches the cleanup statements and its writes are the
frame names of the leading successful reads. -/
theorem convert_from_tar_spec (env : VideoEnv)
    (hs : env.stagingOk = true) (ho : env.opened = true)
    (hr : noRaise env.reads) :
    convert_from_tar env =
      { raised := false, errorLogged := false,
        writes := (List.range (env.reads.takeWhile ReadStep.isOk).length).map frameName,
        frameCount := (env.reads.takeWhile ReadStep.isOk).length,
        released := true, removeCount := 1, ret := none } := by
  unfold convert_from_tar
  rw [hs]
  simp only [Bool.false_eq_true, if_false, ho, if_true, Bool.not_true]
  rw [readLoop_spec _ _ _ hr]
  simp

/-- Every member processed by the folder-mode loop ends in `.mp4`. -/
theorem runFolderEntries_mem_mp4 (env : String → VideoEnv) (l : List String)
    (p : String × ConvResult) (hp : p ∈ (runFolderEntries env l).1) :
    endswith p.1 ".mp4" = true := by
  induction l with
  | nil => simp [runFolderEntries] at hp
  | cons f rest ih =>
    by_cases hf : endswith f ".mp4"
    · simp only [runFolderEntries, hf, if_true] at hp
      by_cases hr : (convert_from_tar (env f)).raised
      · simp only [hr, if_true] at hp
        simp only [List.mem_singleton] at hp
        rw [hp]
        exact hf
      · simp only [hr, if_false] at hp
        rcases List.mem_cons.mp hp with h1 | h2
        · rw [h1]; exact hf
        · exact ih h2
    · simp only [runFolderEntries, hf, if_false] at hp
      exact ih hp

/-- Every member processed by the tar-mode loop ends in `.mp4`. -/
theorem runTarEntries_mem_mp4 (env : String → VideoEnv) (l : List String)
    (p : String × ConvResult) (hp : p ∈ (runTarEntries env l).1) :
    endswith p.1 ".mp4" = true := by
  induction l with
  | nil => simp [runTarEntries] at hp
  | cons f rest ih =>
    by_cases hf : endswith f ".mp4"
    · simp only [runTarEntries, hf, if_true] at hp
      by_cases hr : (convert_from_tar (env f)).raised
      · simp only [hr, if_true] at hp
        simp only [List.mem_singleton] at hp
        rw [hp]
        exact hf
      · simp only [hr, if_false] at hp
        rcases List.mem_cons.mp hp with h1 | h2
        · rw [h1]; exact hf
        · exact ih h2
    · simp only [runTarEntries, hf, if_false] at hp
      exact ih hp

/-- When no processed entry raises, the folder-mode loop processes exactly
the `.mp4` members, in order, and no exception escapes. -/
theorem runFolderEntries_spec (env : String → VideoEnv) (l : List String)
    (h : ∀ f ∈ l, endswith f ".mp4" = true → (convert_from_tar (env f)).raised = false) :
    runFolderEntries env l =
      ((l.filter (fun f => endswith f ".mp4")).map (fun f => (f, convert_from_tar (env f))),
       false) := by
  induction l with
  | nil => simp [runFolderEntries]
  | cons f rest ih =>
    have hrest : ∀ g ∈ rest, endswith g ".mp4" = true →
        (convert_from_tar (env g)).raised = false :=
      fun g hg => h g (List.mem_cons_of_mem _ hg)
    by_cases hf : endswith f ".mp4"
    · simp only [runFolderEntries, hf, if_true, h f (List.mem_cons_self _ _) hf,
        if_false, ih hrest, List.filter_cons, List.map_cons, Bool.false_eq_true]
    · simp only [runFolderEntries, hf, if_false, ih hrest, List.filter_cons,
        Bool.false_eq_true]

/-- When no processed entry raises, the tar-mode loop processes exactly
the `.mp4` members, adds one arcname per processed member, in order, and
no exception escapes. -/
theorem runTarEntries_spec (env : String → VideoEnv) (l : List String)
    (h : ∀ f ∈ l, endswith f ".mp4" = true → (convert_from_tar (env f)).raised = false) :
    runTarEntries env l =
      ((l.filter (fun f => endswith f ".mp4")).map (fun f => (f, convert_from_tar (env f))),
       (l.filter (fun f => endswith f ".mp4")).map arcnameFor,
       false) := by
  induction l with
  | nil => simp [runTarEntries]
  | cons f rest ih =>
    have hrest : ∀ g ∈ rest, endswith g ".mp4" = true →
        (convert_from_tar (env g)).raised = false :=
      fun g hg => h g (List.mem_cons_of_mem _ hg)
    by_cases hf : endswith f ".mp4"
    · simp only [runTarEntries, hf, if_true, h f (List.mem_cons_self _ _) hf,
        if_false, ih hrest, List.filter_cons, List.map_cons, Bool.false_eq_true]
    · simp only [runTarEntries, hf, if_false, ih hrest, List.filter_cons,
        Bool.false_eq_true]

/-- Replacing `.tar` at the end of a path whose earlier part contains no
dot substitutes exactly the suffix: the only occurrence of `.tar` starts
at its only dot. -/
theorem pyReplaceGo_tar_suffix (new : List Char) (sl : List Char) (fuel : Nat)
    (h : '.' ∉ sl) (hf : (sl ++ ['.', 't', 'a', 'r']).length ≤ fuel) :
    pyReplaceGo ['.', 't', 'a', 'r'] new fuel (sl ++ ['.', 't', 'a', 'r'])
      = sl ++ new := by
  induction sl generalizing fuel with
  | nil =>
    simp only [List.length_append, List.nil_append, List.length_cons,
      List.length_nil] at hf
    match fuel, hf with
    | f + 1, _ =>
      simp [pyReplaceGo, List.isPrefixOf]
  | cons c sl' ih =>
    have hc : c ≠ '.' := fun hcc => h (hcc ▸ List.mem_cons_self _ _)
    have hbeq : ('.' == c) = false := beq_eq_false_iff_ne.mpr (Ne.symm hc)
    have hpre : List.isPrefixOf ['.', 't', 'a', 'r'] (c :: (sl' ++ ['.', 't', 'a', 'r'])) = false := by
      simp [List.isPrefixOf, hbeq]
    simp only [List.length_cons, List.cons_append] at hf ⊢
    match fuel, hf with
    | f + 1, hf =>
      rw [pyReplaceGo]
      simp only [hpre, Bool.false_eq_true, false_and, if_false]
      rw [ih f (fun hm => h (List.mem_cons_of_mem _ hm)) (by omega)]

/-- String-level version: for a path `stem ++ ".tar"` whose stem contains
no dot, the output-archive path computed at line 29 is the sibling
`stem ++ "_decompressed.tar"`. -/
theorem pyReplace_tar_suffix (stem : String) (h : ∀ c ∈ stem.data, c ≠ '.') :
    pyReplace (stem ++ ".tar") ".tar" "_decompressed.tar"
      = stem ++ "_decompressed.tar" := by
  apply String.ext
  show pyReplaceGo (".tar").data ("_decompressed.tar").data
        (stem ++ ".tar").data.length (stem ++ ".tar").data
      = (stem ++ "_decompressed.tar").data
  rw [String.data_append, String.data_append]
  have htar : (".tar").data = ['.', 't', 'a', 'r'] := rfl
  rw [htar]
  exact pyReplaceGo_tar_suffix _ _ _ (fun hm => (h _ hm) rfl) le_rfl

/-- `takeWhile (not a dot)` over a dot-free list followed by a
dot-initial tail returns exactly the dot-free part. -/
theorem takeWhile_ne_dot_append (sl tail : List Char) (h : '.' ∉ sl) :
    (sl ++ '.' :: tail).takeWhile (fun c => c ≠ '.') = sl := by
  induction sl with
  | nil => simp [List.takeWhile]
  | cons c sl' ih =>
    have hc : c ≠ '.' := fun hcc => h (hcc ▸ List.mem_cons_self _ _)
    rw [List.cons_append,
        List.takeWhile_cons_of_pos (by simpa using hc),
        ih (fun hm => h (List.mem_cons_of_mem _ hm))]

/-- A slash-free string is its own base name. -/
theorem basename_no_slash (s : String) (h : ∀ c ∈ s.data, c ≠ '/') :
    basename s = s := by
  apply String.ext
  show ((s.data.reverse.takeWhile (fun c => c ≠ '/')).reverse) = s.data
  rw [List.takeWhile_eq_self_iff.mpr, List.reverse_reverse]
  intro a ha
  simp only [List.mem_reverse] at ha
  simp [h a ha]

/-- For a member name `stem ++ ".mp4"` with a slash-free, dot-free stem,
the arcname computed at line 44 is the stem itself. -/
theorem arcnameFor_clean (s : String)
    (h : ∀ c ∈ s.data, c ≠ '.' ∧ c ≠ '/') :
    arcnameFor (s ++ ".mp4") = s := by
  have hb : basename (s ++ ".mp4") = s ++ ".mp4" := by
    apply basename_no_slash
    intro c hc
    rw [String.data_append] at hc
    rcases List.mem_append.mp hc with h1 | h2
    · exact (h c h1).2
    · intro hcc
      rw [hcc] at h2
      exact absurd h2 (by decide)
  rw [arcnameFor, hb]
  apply String.ext
  show ((s ++ ".mp4").data.takeWhile (fun c => c ≠ '.')) = s.data
  rw [String.data_append]
  have hm : (".mp4").data = '.' :: ['m', 'p', '4'] := rfl
  rw [hm]
  exact takeWhile_ne_dot_append _ _ (fun hc => (h _ hc).1 rfl)

/-- Below 10 to the 8th the written frame index is zero-padded to exactly
eight characters. -/
theorem zfill8_length (i : Nat) (hi : i < 10 ^ 8) : (zfill8 i).length = 8 := by
  have hL : (Nat.repr i).length ≤ 8 := Nat.repr_length i 8 (by norm_num) hi
  have hts : (toString i).length = (Nat.repr i).length := rfl
  show (List.replicate (8 - (toString i).length) '0' ++ (toString i).data).length = 8
  rw [List.length_append, List.length_replicate]
  have hdl : (toString i).data.length = (toString i).length := rfl
  omega

/-! ## Claims -/

/-- C1: for every staged video that the decoder opens successfully (no
frame write raising), `convert_from_tar` writes one image file per
successfully decoded frame, named `frameName i` for i = 0, 1, ..., N-1
(zero-padded width 8 plus `.jpg`, exactly eight digits below 10^8), where
N is the number of successful reads before the first unsuccessful one:
contiguous indices, no gaps, no reuse, stopping at the first failed
read. -/
theorem C1_frames_contiguous (env : VideoEnv)
    (hs : env.stagingOk = true) (ho : env.opened = true)
    (hr : noRaise env.reads) :
    (convert_from_tar env).writes
        = (List.range ((env.reads.takeWhile ReadStep.isOk).length)).map frameName
      ∧ (convert_from_tar env).frameCount
        = (env.reads.takeWhile ReadStep.isOk).length
      ∧ ∀ i, i < 10 ^ 8 → (zfill8 i).length = 8 := by
  rw [convert_from_tar_spec env hs ho hr]
  exact ⟨rfl, rfl, fun i hi => zfill8_length i hi⟩

/-- Witness for C1 at a concrete two-frame video. -/
theorem C1_frames_contiguous_witness :
    ((⟨true, true, [ReadStep.frameOk, ReadStep.frameOk, ReadStep.retFalse]⟩ : VideoEnv).stagingOk = true
     ∧ (⟨true, true, [ReadStep.frameOk, ReadStep.frameOk, ReadStep.retFalse]⟩ : VideoEnv).opened = true
     ∧ noRaise (⟨true, true, [ReadStep.frameOk, ReadStep.frameOk, ReadStep.retFalse]⟩ : VideoEnv).reads)
    ∧ ((convert_from_tar ⟨true, true, [ReadStep.frameOk, ReadStep.frameOk, ReadStep.retFalse]⟩).writes
        = (List.range (((⟨true, true, [ReadStep.frameOk, ReadStep.frameOk, ReadStep.retFalse]⟩ : VideoEnv).reads.takeWhile ReadStep.isOk).length)).map frameName
      ∧ (convert_from_tar ⟨true, true, [ReadStep.frameOk, ReadStep.frameOk, ReadStep.retFalse]⟩).frameCount
        = (((⟨true, true, [ReadStep.frameOk, ReadStep.frameOk, ReadStep.retFalse]⟩ : VideoEnv).reads.takeWhile ReadStep.isOk).length)
      ∧ ∀ i, i < 10 ^ 8 → (zfill8 i).length = 8) :=
  ⟨⟨rfl, rfl, by decide⟩,
   C1_frames_contiguous ⟨true, true, [ReadStep.frameOk, ReadStep.frameOk, ReadStep.retFalse]⟩
     rfl rfl (by decide)⟩

/-- C2 counterexample: the claim promises release-and-delete on every
failure path, but when a frame write raises (or staging raises) the
exception propagates past lines 84 and 85: the decoder is not released
and the staged file is never deleted. -/
theorem C2_cleanup_counterexample :
    (convert_from_tar ⟨true, true, [ReadStep.frameRaise]⟩).removeCount = 0
    ∧ (convert_from_tar ⟨true, true, [ReadStep.frameRaise]⟩).released = false
    ∧ (convert_from_tar ⟨false, true, []⟩).removeCount = 0
    ∧ (convert_from_tar ⟨false, true, []⟩).released = false := by decide

/-- C2 amended: whenever staging succeeds and no frame write raises —
including the decode-open-failure path — `convert_from_tar` releases the
decoder and deletes the staged video exactly once; if staging raises or
a frame write raises, the exception propagates and neither happens. -/
theorem C2_cleanup_amended (env : VideoEnv)
    (hs : env.stagingOk = true) (hr : noRaise env.reads) :
    (convert_from_tar env).released = true
    ∧ (convert_from_tar env).removeCount = 1 := by
  by_cases ho : env.opened = true
  · rw [convert_from_tar_spec env hs ho hr]
    exact ⟨rfl, rfl⟩
  · have ho' : env.opened = false := by
      cases h : env.opened
      · rfl
      · exact absurd h ho
    unfold convert_from_tar
    rw [hs, ho']
    exact ⟨rfl, rfl⟩

/-- Witness for C2 amended, on the decode-open-failure path. -/
theorem C2_cleanup_amended_witness :
    ((⟨true, false, []⟩ : VideoEnv).stagingOk = true
     ∧ noRaise (⟨true, false, []⟩ : VideoEnv).reads)
    ∧ ((convert_from_tar ⟨true, false, []⟩).released = true
       ∧ (convert_from_tar ⟨true, false, []⟩).removeCount = 1) :=
  ⟨⟨rfl, by decide⟩, C2_cleanup_amended ⟨true, false, []⟩ rfl (by decide)⟩

/-- C3: at an archive that cannot be opened, the except-branch at lines
25 to 27 evaluates a format string plus the exception object, which
itself raises `TypeError`; nothing is logged, the job does not return
normally, and the uncaught exception escapes in both modes (aborting the
sequential driver loop, hence sibling jobs). -/
theorem C3_open_failure_raises :
    openFailureLog "missing.tar" (PyVal.pexc "No such file or directory")
        = Except.error "TypeError: can only concatenate str to str"
    ∧ (convert_to_tar ⟨"missing.tar", false, "No such file or directory", [],
        fun _ => ⟨true, true, []⟩⟩).raised = true
    ∧ (convert_to_tar ⟨"missing.tar", false, "No such file or directory", [],
        fun _ => ⟨true, true, []⟩⟩).logged = []
    ∧ (convert_to_folder ⟨"missing.tar", false, "No such file or directory", [],
        fun _ => ⟨true, true, []⟩⟩).raised = true
    ∧ (convert_to_folder ⟨"missing.tar", false, "No such file or directory", [],
        fun _ => ⟨true, true, []⟩⟩).logged = [] :=
  ⟨rfl, rfl, rfl, rfl, rfl⟩

/-- C4: the staging path computed for a member (lines 72, 73 and 85) is
`tmp_dir/video_name`, independent of which archive the job is
processing: two distinct archives holding an identically named video
member stage to the same path under the shared scratch root. -/
theorem C4_staging_collision :
    ("a.tar" : String) ≠ "b.tar"
    ∧ stagedVideoPath "a.tar" "/tmp/shift-dataset/" "front.mp4"
        = stagedVideoPath "b.tar" "/tmp/shift-dataset/" "front.mp4" :=
  ⟨by decide, rfl⟩

/-- C5 counterexample: with a valid pattern matching zero files, `main`
does not report a no-input failure and does not stop early: it logs the
zero count as plain info and still creates the scratch root with
`os.makedirs` — a filesystem write. -/
theorem C5_no_input_counterexample :
    MainAct.makedirs "/tmp/shift-dataset/"
        ∈ mainRun "./videos/*.tar" "/tmp/shift-dataset/" []
    ∧ mainRun "./videos/*.tar" "/tmp/shift-dataset/" []
        = [MainAct.logInfo "Files to convert: 0",
           MainAct.logInfo "Starting conversion",
           MainAct.makedirs "/tmp/shift-dataset/"] := by decide

/-- C5 amended: for every pattern ending in `.tar` that matches zero
files, the pipeline logs the zero match count, creates the scratch root,
and runs zero jobs; it does not report a failure and does not terminate
before the makedirs write. -/
theorem C5_no_input_amended (pattern tmp_dir : String)
    (hp : pattern.takeRight 4 = ".tar") :
    mainRun pattern tmp_dir []
      = [MainAct.logInfo "Files to convert: 0",
         MainAct.logInfo "Starting conversion",
         MainAct.makedirs tmp_dir] := by
  unfold mainRun
  rw [hp]
  have h0 : ("Files to convert: " ++ toString 0) = "Files to convert: 0" := rfl
  simp [h0]

/-- Witness for C5 amended at a concrete pattern and scratch root. -/
theorem C5_no_input_amended_witness :
    (("./videos/*.tar" : String).takeRight 4 = ".tar")
    ∧ mainRun "./videos/*.tar" "/tmp/shift-dataset/" []
        = [MainAct.logInfo "Files to convert: 0",
           MainAct.logInfo "Starting conversion",
           MainAct.makedirs "/tmp/shift-dataset/"] :=
  ⟨by decide, C5_no_input_amended "./videos/*.tar" "/tmp/shift-dataset/" (by decide)⟩

/-- C6 counterexample: line 29 replaces every occurrence of `.tar` in
the path, not just the suffix, and line 44 truncates the member base
name at its first dot, not at its extension: on archive
`data.tar.backup.tar` with member `clip.v2.mp4` the output archive is
not the sibling named by the stem, and the entry is not named by the
member stem. -/
theorem C6_output_naming_counterexample :
    (convert_to_tar ⟨"data.tar.backup.tar", true, "", ["clip.v2.mp4"],
        fun _ => ⟨true, true, []⟩⟩).writerPath
      = some "data_decompressed.tar.backup_decompressed.tar"
    ∧ (convert_to_tar ⟨"data.tar.backup.tar", true, "", ["clip.v2.mp4"],
        fun _ => ⟨true, true, []⟩⟩).writerPath
      ≠ some ("data.tar.backup" ++ "_decompressed.tar")
    ∧ (convert_to_tar ⟨"data.tar.backup.tar", true, "", ["clip.v2.mp4"],
        fun _ => ⟨true, true, []⟩⟩).entriesAdded = ["clip"]
    ∧ arcnameFor "clip.v2.mp4" ≠ "clip.v2" := by decide

/-- C6 amended: for archive paths `stem ++ ".tar"` whose stem contains
no dot, the output archive is the sibling `stem ++ "_decompressed.tar"`,
finalized on close, with one entry per converted `.mp4` member in order,
each named by the part of the member base name before its first dot —
which is the member stem whenever the base name has a single dot. -/
theorem C6_output_naming_amended (j : TarJobEnv) (stem : String)
    (hpath : j.tar_filepath = stem ++ ".tar")
    (hstem : ∀ c ∈ stem.data, c ≠ '.')
    (hopen : j.openOk = true)
    (hok : ∀ f ∈ j.members, endswith f ".mp4" = true →
      (convert_from_tar (j.entryEnv f)).raised = false) :
    (convert_to_tar j).writerPath = some (stem ++ "_decompressed.tar")
    ∧ (convert_to_tar j).writerClosed = true
    ∧ (convert_to_tar j).entriesAdded
        = (j.members.filter (fun f => endswith f ".mp4")).map arcnameFor
    ∧ ∀ s : String, (∀ c ∈ s.data, c ≠ '.' ∧ c ≠ '/') →
        arcnameFor (s ++ ".mp4") = s := by
  unfold convert_to_tar
  rw [hopen]
  rw [runTarEntries_spec _ _ hok]
  simp only [Bool.true_eq_false, if_false, Bool.false_eq_true]
  refine ⟨?_, trivial, trivial, fun s hs => arcnameFor_clean s hs⟩
  rw [hpath, pyReplace_tar_suffix stem hstem]

/-- Witness for C6 amended at a concrete archive. -/
theorem C6_output_naming_amended_witness :
    ((⟨"videos.tar", true, "", ["clip.mp4", "readme.txt"],
        fun _ => ⟨true, true, [ReadStep.frameOk, ReadStep.retFalse]⟩⟩ : TarJobEnv).tar_filepath
        = "videos" ++ ".tar"
     ∧ (∀ c ∈ ("videos" : String).data, c ≠ '.')
     ∧ (⟨"videos.tar", true, "", ["clip.mp4", "readme.txt"],
        fun _ => ⟨true, true, [ReadStep.frameOk, ReadStep.retFalse]⟩⟩ : TarJobEnv).openOk = true
     ∧ ∀ f ∈ (⟨"videos.tar", true, "", ["clip.mp4", "readme.txt"],
        fun _ => ⟨true, true, [ReadStep.frameOk, ReadStep.retFalse]⟩⟩ : TarJobEnv).members,
          endswith f ".mp4" = true →
          (convert_from_tar ((⟨"videos.tar", true, "", ["clip.mp4", "readme.txt"],
            fun _ => ⟨true, true, [ReadStep.frameOk, ReadStep.retFalse]⟩⟩ : TarJobEnv).entryEnv f)).raised = false)
    ∧ ((convert_to_tar ⟨"videos.tar", true, "", ["clip.mp4", "readme.txt"],
          fun _ => ⟨true, true, [ReadStep.frameOk, ReadStep.retFalse]⟩⟩).writerPath
        = some ("videos" ++ "_decompressed.tar")
      ∧ (convert_to_tar ⟨"videos.tar", true, "", ["clip.mp4", "readme.txt"],
          fun _ => ⟨true, true, [ReadStep.frameOk, ReadStep.retFalse]⟩⟩).writerClosed = true
      ∧ (convert_to_tar ⟨"videos.tar", true, "", ["clip.mp4", "readme.txt"],
          fun _ => ⟨true, true, [ReadStep.frameOk, ReadStep.retFalse]⟩⟩).entriesAdded
        = ((⟨"videos.tar", true, "", ["clip.mp4", "readme.txt"],
            fun _ => ⟨true, true, [ReadStep.frameOk, ReadStep.retFalse]⟩⟩ : TarJobEnv).members.filter
              (fun f => endswith f ".mp4")).map arcnameFor
      ∧ ∀ s : String, (∀ c ∈ s.data, c ≠ '.' ∧ c ≠ '/') →
          arcnameFor (s ++ ".mp4") = s) :=
  ⟨⟨rfl, by decide, rfl, by decide⟩,
   C6_output_naming_amended _ "videos" rfl (by decide) rfl (by decide)⟩

/-- A `convert_from_tar` call whose staging succeeds and whose frame
writes do not raise returns normally. -/
theorem convert_from_tar_not_raised (env : VideoEnv)
    (hs : env.stagingOk = true) (hr : noRaise env.reads) :
    (convert_from_tar env).raised = false := by
  by_cases ho : env.opened = true
  · rw [convert_from_tar_spec env hs ho hr]
  · have ho' : env.opened = false := by
      cases h : env.opened
      · rfl
      · exact absurd h ho
    unfold convert_from_tar
    rw [hs, ho']
    rfl

/-- C7: for every staged video the decoder cannot open (archive open and
the other entries behaving normally), `convert_from_tar` logs the error,
writes zero frame files, returns normally rather than crashing, and the
folder-mode loop still processes every `.mp4` member of the archive,
including those after the failing one. -/
theorem C7_decode_open_failure (j : TarJobEnv) (m : String)
    (hopen : j.openOk = true)
    (hm : m ∈ j.members)
    (hse : ∀ f ∈ j.members, (j.entryEnv f).stagingOk = true ∧ noRaise (j.entryEnv f).reads)
    (hno : (j.entryEnv m).opened = false) :
    (convert_from_tar (j.entryEnv m)).errorLogged = true
    ∧ (convert_from_tar (j.entryEnv m)).writes = []
    ∧ (convert_from_tar (j.entryEnv m)).raised = false
    ∧ (convert_to_folder j).raised = false
    ∧ (convert_to_folder j).entries.map Prod.fst
        = j.members.filter (fun f => endswith f ".mp4") := by
  have hok : ∀ f ∈ j.members, endswith f ".mp4" = true →
      (convert_from_tar (j.entryEnv f)).raised = false :=
    fun f hf _ => convert_from_tar_not_raised _ (hse f hf).1 (hse f hf).2
  have hfold : runFolderEntries j.entryEnv j.members =
      ((j.members.filter (fun f => endswith f ".mp4")).map
        (fun f => (f, convert_from_tar (j.entryEnv f))), false) :=
    runFolderEntries_spec _ _ hok
  have hm1 : (convert_from_tar (j.entryEnv m)).errorLogged = true
      ∧ (convert_from_tar (j.entryEnv m)).writes = [] := by
    unfold convert_from_tar
    rw [(hse m hm).1, hno]
    exact ⟨rfl, rfl⟩
  refine ⟨hm1.1, hm1.2, convert_from_tar_not_raised _ (hse m hm).1 (hse m hm).2, ?_, ?_⟩
  · show (convert_to_folder j).raised = false
    unfold convert_to_folder
    rw [hopen, hfold]
    rfl
  · show (convert_to_folder j).entries.map Prod.fst = _
    unfold convert_to_folder
    rw [hopen, hfold]
    show List.map Prod.fst (List.map (fun f => (f, convert_from_tar (j.entryEnv f)))
      (List.filter (fun f => endswith f ".mp4") j.members)) = _
    rw [List.map_map]
    have hid : (Prod.fst ∘ fun f => (f, convert_from_tar (j.entryEnv f)))
        = (id : String → String) := rfl
    rw [hid, List.map_id]

/-- Witness for C7: a two-member archive whose first video cannot be
opened; the second is still processed. -/
theorem C7_decode_open_failure_witness :
    ((⟨"videos.tar", true, "", ["bad.mp4", "good.mp4"],
        fun f => if f = "bad.mp4" then ⟨true, false, []⟩
                 else ⟨true, true, [ReadStep.frameOk, ReadStep.retFalse]⟩⟩ : TarJobEnv).openOk = true
     ∧ "bad.mp4" ∈ (⟨"videos.tar", true, "", ["bad.mp4", "good.mp4"],
        fun f => if f = "bad.mp4" then ⟨true, false, []⟩
                 else ⟨true, true, [ReadStep.frameOk, ReadStep.retFalse]⟩⟩ : TarJobEnv).members
     ∧ (∀ f ∈ (⟨"videos.tar", true, "", ["bad.mp4", "good.mp4"],
        fun f => if f = "bad.mp4" then ⟨true, false, []⟩
                 else ⟨true, true, [ReadStep.frameOk, ReadStep.retFalse]⟩⟩ : TarJobEnv).members,
         ((⟨"videos.tar", true, "", ["bad.mp4", "good.mp4"],
        fun f => if f = "bad.mp4" then ⟨true, false, []⟩
                 else ⟨true, true, [ReadStep.frameOk, ReadStep.retFalse]⟩⟩ : TarJobEnv).entryEnv f).stagingOk = true
         ∧ noRaise ((⟨"videos.tar", true, "", ["bad.mp4", "good.mp4"],
        fun f => if f = "bad.mp4" then ⟨true, false, []⟩
                 else ⟨true, true, [ReadStep.frameOk, ReadStep.retFalse]⟩⟩ : TarJobEnv).entryEnv f).reads)
     ∧ ((⟨"videos.tar", true, "", ["bad.mp4", "good.mp4"],
        fun f => if f = "bad.mp4" then ⟨true, false, []⟩
                 else ⟨true, true, [ReadStep.frameOk, ReadStep.retFalse]⟩⟩ : TarJobEnv).entryEnv "bad.mp4").opened = false)
    ∧ ((convert_from_tar ((⟨"videos.tar", true, "", ["bad.mp4", "good.mp4"],
        fun f => if f = "bad.mp4" then ⟨true, false, []⟩
                 else ⟨true, true, [ReadStep.frameOk, ReadStep.retFalse]⟩⟩ : TarJobEnv).entryEnv "bad.mp4")).errorLogged = true
      ∧ (convert_from_tar ((⟨"videos.tar", true, "", ["bad.mp4", "good.mp4"],
        fun f => if f = "bad.mp4" then ⟨true, false, []⟩
                 else ⟨true, true, [ReadStep.frameOk, ReadStep.retFalse]⟩⟩ : TarJobEnv).entryEnv "bad.mp4")).writes = []
      ∧ (convert_from_tar ((⟨"videos.tar", true, "", ["bad.mp4", "good.mp4"],
        fun f => if f = "bad.mp4" then ⟨true, false, []⟩
                 else ⟨true, true, [ReadStep.frameOk, ReadStep.retFalse]⟩⟩ : TarJobEnv).entryEnv "bad.mp4")).raised = false
      ∧ (convert_to_folder (⟨"videos.tar", true, "", ["bad.mp4", "good.mp4"],
        fun f => if f = "bad.mp4" then ⟨true, false, []⟩
                 else ⟨true, true, [ReadStep.frameOk, ReadStep.retFalse]⟩⟩ : TarJobEnv)).raised = false
      ∧ (convert_to_folder (⟨"videos.tar", true, "", ["bad.mp4", "good.mp4"],
        fun f => if f = "bad.mp4" then ⟨true, false, []⟩
                 else ⟨true, true, [ReadStep.frameOk, ReadStep.retFalse]⟩⟩ : TarJobEnv)).entries.map Prod.fst
        = (⟨"videos.tar", true, "", ["bad.mp4", "good.mp4"],
        fun f => if f = "bad.mp4" then ⟨true, false, []⟩
                 else ⟨true, true, [ReadStep.frameOk, ReadStep.retFalse]⟩⟩ : TarJobEnv).members.filter
            (fun f => endswith f ".mp4")) :=
  ⟨⟨rfl, by decide, by decide, by decide⟩,
   C7_decode_open_failure _ "bad.mp4" rfl (by decide) (by decide) (by decide)⟩

/-- C8 counterexample: the source has no return statement, so the call
returns None even though two frame files were written; the return value
is not the frame count. -/
theorem C8_return_value_counterexample :
    (convert_from_tar ⟨true, true,
        [ReadStep.frameOk, ReadStep.frameOk, ReadStep.retFalse]⟩).ret = none
    ∧ (convert_from_tar ⟨true, true,
        [ReadStep.frameOk, ReadStep.frameOk, ReadStep.retFalse]⟩).writes.length = 2
    ∧ (convert_from_tar ⟨true, true,
        [ReadStep.frameOk, ReadStep.frameOk, ReadStep.retFalse]⟩).ret ≠ some 2 := by decide

/-- C8 amended: `convert_from_tar` returns None, not the frame count;
its internal counter `frame_id` equals the number of frame files written
before end-of-stream, and it is a function of the read sequence alone,
so decoding the same video twice yields the same count. -/
theorem C8_frame_count_amended (env : VideoEnv)
    (hs : env.stagingOk = true) (ho : env.opened = true)
    (hr : noRaise env.reads) :
    (convert_from_tar env).ret = none
    ∧ (convert_from_tar env).frameCount = (convert_from_tar env).writes.length
    ∧ (convert_from_tar env).frameCount
        = (env.reads.takeWhile ReadStep.isOk).length := by
  rw [convert_from_tar_spec env hs ho hr]
  refine ⟨rfl, ?_, rfl⟩
  simp

/-- Witness for C8 amended at a one-frame video. -/
theorem C8_frame_count_amended_witness :
    ((⟨true, true, [ReadStep.frameOk, ReadStep.retFalse]⟩ : VideoEnv).stagingOk = true
     ∧ (⟨true, true, [ReadStep.frameOk, ReadStep.retFalse]⟩ : VideoEnv).opened = true
     ∧ noRaise (⟨true, true, [ReadStep.frameOk, ReadStep.retFalse]⟩ : VideoEnv).reads)
    ∧ ((convert_from_tar ⟨true, true, [ReadStep.frameOk, ReadStep.retFalse]⟩).ret = none
      ∧ (convert_from_tar ⟨true, true, [ReadStep.frameOk, ReadStep.retFalse]⟩).frameCount
        = (convert_from_tar ⟨true, true, [ReadStep.frameOk, ReadStep.retFalse]⟩).writes.length
      ∧ (convert_from_tar ⟨true, true, [ReadStep.frameOk, ReadStep.retFalse]⟩).frameCount
        = ((⟨true, true, [ReadStep.frameOk, ReadStep.retFalse]⟩ : VideoEnv).reads.takeWhile ReadStep.isOk).length) :=
  ⟨⟨rfl, rfl, by decide⟩,
   C8_frame_count_amended ⟨true, true, [ReadStep.frameOk, ReadStep.retFalse]⟩
     rfl rfl (by decide)⟩

/-- C9: a member whose name does not end in `.mp4` is never staged,
decoded, or emitted by either conversion mode: it appears among the
processed entries of neither, so no staging, decode, frame write, or
archive append happens for it, and nothing is logged for it. -/
theorem C9_non_video_skipped (j : TarJobEnv) (m : String)
    (hm : endswith m ".mp4" = false) :
    (∀ p ∈ (convert_to_folder j).entries, p.1 ≠ m)
    ∧ ∀ p ∈ (convert_to_tar j).entries, p.1 ≠ m := by
  constructor
  · intro p hp
    by_cases ho : j.openOk = true
    · have he : (convert_to_folder j).entries
          = (runFolderEntries j.entryEnv j.members).1 := by
        unfold convert_to_folder
        rw [ho]
        rfl
      rw [he] at hp
      have hmp4 := runFolderEntries_mem_mp4 j.entryEnv j.members p hp
      intro hpm
      rw [hpm, hm] at hmp4
      exact absurd hmp4 (by decide)
    · have ho' : j.openOk = false := by
        cases h : j.openOk
        · rfl
        · exact absurd h ho
      have he : (convert_to_folder j).entries = [] := by
        unfold convert_to_folder
        rw [ho']
        rfl
      rw [he] at hp
      exact absurd hp (List.not_mem_nil p)
  · intro p hp
    by_cases ho : j.openOk = true
    · have he : (convert_to_tar j).entries
          = (runTarEntries j.entryEnv j.members).1 := by
        unfold convert_to_tar
        rw [ho]
        cases hb : (runTarEntries j.entryEnv j.members).2.2 <;> simp [hb]
      rw [he] at hp
      have hmp4 := runTarEntries_mem_mp4 j.entryEnv j.members p hp
      intro hpm
      rw [hpm, hm] at hmp4
      exact absurd hmp4 (by decide)
    · have ho' : j.openOk = false := by
        cases h : j.openOk
        · rfl
        · exact absurd h ho
      have he : (convert_to_tar j).entries = [] := by
        unfold convert_to_tar
        rw [ho']
        rfl
      rw [he] at hp
      exact absurd hp (List.not_mem_nil p)

/-- Witness for C9 at a concrete archive holding a text member. -/
theorem C9_non_video_skipped_witness :
    endswith "readme.txt" ".mp4" = false
    ∧ ((∀ p ∈ (convert_to_folder ⟨"videos.tar", true, "", ["clip.mp4", "readme.txt"],
          fun _ => ⟨true, true, []⟩⟩).entries, p.1 ≠ "readme.txt")
      ∧ ∀ p ∈ (convert_to_tar ⟨"videos.tar", true, "", ["clip.mp4", "readme.txt"],
          fun _ => ⟨true, true, []⟩⟩).entries, p.1 ≠ "readme.txt") :=
  ⟨by decide,
   C9_non_video_skipped ⟨"videos.tar", true, "", ["clip.mp4", "readme.txt"],
     fun _ => ⟨true, true, []⟩⟩ "readme.txt" (by decide)⟩

/-- C10: an archive that opens in tar mode but has no `.mp4` member
still gets an output archive: the writer is created at
`tar_filepath.replace(".tar", "_decompressed.tar")` before any member is
examined, no entry is added, and the writer is closed (finalized). -/
theorem C10_empty_archive_output (j : TarJobEnv)
    (hopen : j.openOk = true)
    (hnone : ∀ f ∈ j.members, endswith f ".mp4" = false) :
    (convert_to_tar j).writerPath
        = some (pyReplace j.tar_filepath ".tar" "_decompressed.tar")
    ∧ (convert_to_tar j).writerClosed = true
    ∧ (convert_to_tar j).readerClosed = true
    ∧ (convert_to_tar j).entriesAdded = []
    ∧ (convert_to_tar j).entries = [] := by
  have hok : ∀ f ∈ j.members, endswith f ".mp4" = true →
      (convert_from_tar (j.entryEnv f)).raised = false := by
    intro f hf hmp4
    rw [hnone f hf] at hmp4
    exact absurd hmp4 (by decide)
  have hfilter : j.members.filter (fun f => endswith f ".mp4") = [] := by
    rw [List.filter_eq_nil_iff]
    intro a ha
    rw [hnone a ha]
    decide
  unfold convert_to_tar
  rw [hopen, runTarEntries_spec _ _ hok, hfilter]
  exact ⟨rfl, rfl, rfl, rfl, rfl⟩

/-- Witness for C10 at an archive holding only non-video members. -/
theorem C10_empty_archive_output_witness :
    ((⟨"videos.tar", true, "", ["readme.txt", "notes.md"],
        fun _ => ⟨true, true, []⟩⟩ : TarJobEnv).openOk = true
     ∧ ∀ f ∈ (⟨"videos.tar", true, "", ["readme.txt", "notes.md"],
        fun _ => ⟨true, true, []⟩⟩ : TarJobEnv).members, endswith f ".mp4" = false)
    ∧ ((convert_to_tar ⟨"videos.tar", true, "", ["readme.txt", "notes.md"],
          fun _ => ⟨true, true, []⟩⟩).writerPath
        = some (pyReplace (⟨"videos.tar", true, "", ["readme.txt", "notes.md"],
            fun _ => ⟨true, true, []⟩⟩ : TarJobEnv).tar_filepath ".tar" "_decompressed.tar")
      ∧ (convert_to_tar ⟨"videos.tar", true, "", ["readme.txt", "notes.md"],
          fun _ => ⟨true, true, []⟩⟩).writerClosed = true
      ∧ (convert_to_tar ⟨"videos.tar", true, "", ["readme.txt", "notes.md"],
          fun _ => ⟨true, true, []⟩⟩).readerClosed = true
      ∧ (convert_to_tar ⟨"videos.tar", true, "", ["readme.txt", "notes.md"],
          fun _ => ⟨true, true, []⟩⟩).entriesAdded = []
      ∧ (convert_to_tar ⟨"videos.tar", true, "", ["readme.txt", "notes.md"],
          fun _ => ⟨true, true, []⟩⟩).entries = []) :=
  ⟨⟨rfl, by decide⟩,
   C10_empty_archive_output ⟨"videos.tar", true, "", ["readme.txt", "notes.md"],
     fun _ => ⟨true, true, []⟩⟩ rfl (by decide)⟩
